import Mathlib

/-!
Shallow embedding of `src/server.py` (BioStudies MCP server).

The Python module contains a request helper `_make_api_request` and three
tool functions `get_study`, `search_studies`, `get_study_info`.  The
network is modelled as an oracle `net : HttpRequest → RequestOutcome`
mapping the single GET request a call issues to its outcome; the pure
marshalling logic (query-string parsing, parameter normalisation, URL
selection, response/error formatting) is translated function by function.

Python dictionaries are modelled as association lists with unique keys:
assignment to an existing key updates the entry in place, assignment to a
fresh key appends, lookup returns the first (hence only) entry.  Python
`str.split` and `str.startswith` are modelled by structural recursion on
the character list of the string (the core library versions use
well-founded recursion, which does not reduce in the kernel).
-/

namespace BioStudies

/-- Model of Python `s.split(c)` for a one-character separator `c`,
on character lists: `splitChar c "a&&b".data = ["a", "", "b"].data`-wise. -/
def splitChar (c : Char) : List Char → List (List Char)
  | [] => [[]]
  | x :: xs =>
    let r := splitChar c xs
    if x = c then [] :: r
    else
      match r with
      | [] => [[x]]
      | g :: gs => (x :: g) :: gs

/-- Model of Python `params.split('&')`. -/
def splitAmp (s : String) : List String :=
  (splitChar '&' s.data).map String.mk

/-- Split a character list at the first `'='`: `some (key, value)` when an
`'='` occurs, `none` otherwise.  Models `'=' in pair` together with
`pair.split('=', 1)` in `search_studies`. -/
def splitFirstEq : List Char → Option (List Char × List Char)
  | [] => none
  | c :: cs =>
    if c = '=' then some ([], cs)
    else (splitFirstEq cs).map (fun kv => (c :: kv.1, kv.2))

/-- The key/value pair contributed by one candidate pair of the raw
parameter string: `none` when the pair contains no `'='` (such pairs are
skipped by `search_studies`). -/
def pairKV (pr : String) : Option (String × String) :=
  (splitFirstEq pr.data).map (fun kv => (String.mk kv.1, String.mk kv.2))

/-- Association-list lookup; models `param_dict[k]` / `param_dict.get(k)`. -/
def dictGet? (d : List (String × String)) (k : String) : Option String :=
  match d with
  | [] => none
  | p :: rest => if p.1 = k then some p.2 else dictGet? rest k

/-- Model of Python dict assignment `param_dict[k] = v`: update the entry
in place when the key is present, append otherwise. -/
def dictInsert (d : List (String × String)) (k v : String) : List (String × String) :=
  if d.any (fun p => p.1 == k) then
    d.map (fun p => if p.1 = k then (k, v) else p)
  else
    d ++ [(k, v)]

/-- One iteration of the parsing loop of `search_studies`:
`if '=' in pair: key, value = pair.split('=', 1); param_dict[key] = value`. -/
def parseStep (d : List (String × String)) (pr : String) : List (String × String) :=
  match pairKV pr with
  | some kv => dictInsert d kv.1 kv.2
  | none => d

/-- The parsing phase of `search_studies` (lines 92–98 of `server.py`):
empty input gives the empty dict, otherwise split on `'&'` and process
each candidate pair. -/
def parseParams (params : String) : List (String × String) :=
  if params = "" then []
  else (splitAmp params).foldl parseStep []

/-- Model of Python `beginsWith pre s`: `pre` is an initial segment of `s`. -/
def beginsWith : List Char → List Char → Bool
  | [], _ => true
  | _ :: _, [] => false
  | a :: as, b :: bs => a == b && beginsWith as bs

/-- Model of Python `s.startswith(pre)`. -/
def strBeginsWith (s pre : String) : Bool :=
  beginsWith pre.data s.data

/-- The global search endpoint of the BioStudies API. -/
def globalSearchUrl : String :=
  "https://www.ebi.ac.uk/biostudies/api/v1/search"

/-- The collection-scoped search endpoint for collection `c`. -/
def collectionSearchUrl (c : String) : String :=
  "https://www.ebi.ac.uk/biostudies/api/v1/" ++ c ++ "/search"

/-- URL selection of `search_studies` (lines 100–104):
`collection = param_dict.pop('collection', None)` followed by
`base_url = f"…/{collection}/search" if collection else "…/search"`.
Python truthiness makes both an absent collection and an empty-string
collection select the global endpoint. -/
def search_studies_url (params : String) : String :=
  match dictGet? (parseParams params) "collection" with
  | some c => if c = "" then globalSearchUrl else collectionSearchUrl c
  | none => globalSearchUrl

/-- One defaulting step of `search_studies`:
`if k0 not in param_dict: param_dict[k0] = v0`. -/
def applyDefault (k0 v0 : String) (d : List (String × String)) : List (String × String) :=
  if d.any (fun p => p.1 == k0) then d else d ++ [(k0, v0)]

/-- Parameter normalisation of `search_studies` (lines 100–115): remove the
`collection` key (the `pop`), drop `facet.`-keys, then default `page`,
`pageSize` and `sortOrder` in that order when absent. -/
def search_studies_params (params : String) : List (String × String) :=
  applyDefault "sortOrder" "descending"
    (applyDefault "pageSize" "20"
      (applyDefault "page" "1"
        (((parseParams params).filter (fun p => p.1 != "collection")).filter
          (fun p => !(strBeginsWith p.1 "facet.")))))

/-- JSON values, as produced by Python `response.json()`.  Python floats
are outside the scope of the claims; numbers are modelled as integers. -/
inductive PyJson where
  | null : PyJson
  | boolean : Bool → PyJson
  | num : Int → PyJson
  | str : String → PyJson
  | arr : List PyJson → PyJson
  | obj : List (String × PyJson) → PyJson

/-- Lowercase hexadecimal digit, as used by Python `\uXXXX` escapes. -/
def hexDigit (n : Nat) : Char :=
  if n < 10 then Char.ofNat (48 + n) else Char.ofNat (97 + (n - 10))

/-- Four lowercase hex digits of `n` (mod 2^16). -/
def hex4 (n : Nat) : String :=
  String.mk [hexDigit (n / 4096 % 16), hexDigit (n / 256 % 16),
             hexDigit (n / 16 % 16), hexDigit (n % 16)]

/-- Escaping of one character by Python `json.dumps` with the default
`ensure_ascii=True`: printable ASCII other than `"` and `\` is literal,
common control characters use short escapes, everything else becomes
`\uXXXX` (a surrogate pair beyond the BMP). -/
def escapeChar (c : Char) : String :=
  if c = '"' then "\\\""
  else if c = '\\' then "\\\\"
  else if c = '\n' then "\\n"
  else if c = '\r' then "\\r"
  else if c = '\t' then "\\t"
  else if c.toNat = 8 then "\\b"
  else if c.toNat = 12 then "\\f"
  else if c.toNat < 32 ∨ c.toNat > 126 then
    if c.toNat ≤ 65535 then "\\u" ++ hex4 c.toNat
    else
      "\\u" ++ hex4 (55296 + (c.toNat - 65536) / 1024) ++
      "\\u" ++ hex4 (56320 + (c.toNat - 65536) % 1024)
  else String.singleton c

/-- A JSON string literal as serialised by `json.dumps`. -/
def dumpString (s : String) : String :=
  "\"" ++ String.join (s.data.map escapeChar) ++ "\""

/-- Indentation produced by `json.dumps(..., indent=2)` at nesting
level `lvl`: `2 * lvl` spaces. -/
def indentStr (lvl : Nat) : String :=
  String.mk (List.replicate (2 * lvl) ' ')

mutual

/-- Serialisation of a JSON value by Python `json.dumps(x, indent=2)`,
at nesting level `lvl`.  With an indent, Python places each container
item on its own line, uses `", "`-free separators `(',', ': ')`, and
renders empty containers inline. -/
def dumpsVal : PyJson → Nat → String
  | PyJson.null, _ => "null"
  | PyJson.boolean true, _ => "true"
  | PyJson.boolean false, _ => "false"
  | PyJson.num n, _ => toString n
  | PyJson.str s, _ => dumpString s
  | PyJson.arr [], _ => "[]"
  | PyJson.arr (x :: xs), lvl =>
      "[\n" ++ dumpsItems x xs (lvl + 1) ++ "\n" ++ indentStr lvl ++ "]"
  | PyJson.obj [], _ => "\x7b\x7d"
  | PyJson.obj (kv :: kvs), lvl =>
      "\x7b\n" ++ dumpsFields kv kvs (lvl + 1) ++ "\n" ++ indentStr lvl ++ "\x7d"
termination_by j _ => sizeOf j

/-- The comma-separated lines of a non-empty JSON array. -/
def dumpsItems : PyJson → List PyJson → Nat → String
  | x, [], lvl => indentStr lvl ++ dumpsVal x lvl
  | x, y :: rest, lvl =>
      indentStr lvl ++ dumpsVal x lvl ++ ",\n" ++ dumpsItems y rest lvl
termination_by x xs _ => 1 + sizeOf x + sizeOf xs

/-- The comma-separated lines of a non-empty JSON object. -/
def dumpsFields : String × PyJson → List (String × PyJson) → Nat → String
  | (k, v), [], lvl => indentStr lvl ++ dumpString k ++ ": " ++ dumpsVal v lvl
  | (k, v), kv :: rest, lvl =>
      indentStr lvl ++ dumpString k ++ ": " ++ dumpsVal v lvl ++ ",\n" ++
      dumpsFields kv rest lvl
termination_by kv kvs _ => 1 + sizeOf kv + sizeOf kvs

end

/-- Python `json.dumps(x, indent=2)` at top level. -/
def pyJsonDumps2 (j : PyJson) : String :=
  dumpsVal j 0

/-- A single GET request as issued by `requests.get(url, params=params)`:
the target URL and the optional query-parameter mapping. -/
structure HttpRequest where
  url : String
  params : Option (List (String × String))
deriving DecidableEq

/-- Outcome of the one `requests.get` call of `_make_api_request`:
either a response with a status code, the parse result of
`response.json()` (`Except.error` when the body is not JSON, in which
case `.json()` raises) and the raw body `response.text`, or an exception
raised during the request, carrying `str(e)`. -/
inductive RequestOutcome where
  | response : Nat → Except String PyJson → String → RequestOutcome
  | except : String → RequestOutcome

/-- The response handling of `_make_api_request` (lines 10–19 of
`server.py`): on status 200 return `json.dumps(response.json(), indent=2)`
(a JSON-parse failure raises and is caught by the `except` clause like
any other exception); on any other status return the formatted error
string with the raw body; any exception is caught and formatted. -/
def handleOutcome : RequestOutcome → String
  | RequestOutcome.except d =>
      "Error: An exception occurred during request: " ++ d
  | RequestOutcome.response status jsonBody text =>
      if status = 200 then
        match jsonBody with
        | Except.ok j => pyJsonDumps2 j
        | Except.error d => "Error: An exception occurred during request: " ++ d
      else
        "Error: Request failed with status code " ++ toString status ++
        ". Response: " ++ text

/-- Model of `_make_api_request` given a network oracle `net` mapping the
issued request to its outcome. -/
def make_api_request (net : HttpRequest → RequestOutcome)
    (url : String) (params : Option (List (String × String))) : String :=
  handleOutcome (net { url := url, params := params })

/-- The request issued by `get_study accession`. -/
def get_study_request (accession : String) : HttpRequest :=
  { url := "https://www.ebi.ac.uk/biostudies/api/v1/studies/" ++ accession
    params := none }

/-- Model of the `get_study` tool (lines 21–25). -/
def get_study (net : HttpRequest → RequestOutcome) (accession : String) : String :=
  make_api_request net
    ("https://www.ebi.ac.uk/biostudies/api/v1/studies/" ++ accession) none

/-- The request issued by `search_studies params`. -/
def search_studies_request (params : String) : HttpRequest :=
  { url := search_studies_url params
    params := some (search_studies_params params) }

/-- Model of the `search_studies` tool (lines 27–117). -/
def search_studies (net : HttpRequest → RequestOutcome) (params : String) : String :=
  make_api_request net (search_studies_url params) (some (search_studies_params params))

/-- The request issued by `get_study_info accession`. -/
def get_study_info_request (accession : String) : HttpRequest :=
  { url := "https://www.ebi.ac.uk/biostudies/api/v1/studies/" ++ accession ++ "/info"
    params := none }

/-- Model of the `get_study_info` tool (lines 119–133). -/
def get_study_info (net : HttpRequest → RequestOutcome) (accession : String) : String :=
  make_api_request net
    ("https://www.ebi.ac.uk/biostudies/api/v1/studies/" ++ accession ++ "/info") none

/-- The value candidate pair `pr` contributes for key `k`: its value when
`pr` contains an `'='` and its key part equals `k`, nothing otherwise. -/
def pairValueFor (pr : String) (k : String) : Option String :=
  match pairKV pr with
  | some kv => if kv.1 = k then some kv.2 else none
  | none => none

/-- The value of the last candidate pair of `prs` with key `k`, if any;
later pairs take precedence. -/
def lastPairValue (k : String) : List String → Option String
  | [] => none
  | pr :: rest => (lastPairValue k rest).or (pairValueFor pr k)

theorem dictGet?_filter (d : List (String × String)) (q : String → Bool) (k : String)
    (hq : q k = true) :
    dictGet? (d.filter (fun p => q p.1)) k = dictGet? d k := by
  induction d with
  | nil => rfl
  | cons p rest ih =>
    by_cases hp : p.1 = k
    · have hqp : q p.1 = true := by rw [hp]; exact hq
      simp [List.filter_cons, hqp, hq, dictGet?, hp]
    · cases hq' : q p.1 with
      | true => simp [List.filter_cons, hq', dictGet?, hp, ih]
      | false => simp [List.filter_cons, hq', dictGet?, hp, ih]

theorem dictGet?_filterColl (d : List (String × String)) (k : String)
    (hk : (k != "collection") = true) :
    dictGet? (d.filter (fun p => p.1 != "collection")) k = dictGet? d k :=
  dictGet?_filter d (fun s => s != "collection") k hk

theorem dictGet?_filterFacet (d : List (String × String)) (k : String)
    (hk : (!(strBeginsWith k "facet.")) = true) :
    dictGet? (d.filter (fun p => !(strBeginsWith p.1 "facet."))) k = dictGet? d k :=
  dictGet?_filter d (fun s => !(strBeginsWith s "facet.")) k hk

theorem dictGet?_append (d e : List (String × String)) (k : String) :
    dictGet? (d ++ e) k = (dictGet? d k).or (dictGet? e k) := by
  induction d with
  | nil => simp [dictGet?, Option.none_or]
  | cons p rest ih =>
    by_cases hp : p.1 = k
    · simp [dictGet?, hp, Option.or]
    · simp [dictGet?, hp, ih]

theorem any_key_eq_isSome (d : List (String × String)) (k : String) :
    d.any (fun p => p.1 == k) = (dictGet? d k).isSome := by
  induction d with
  | nil => rfl
  | cons p rest ih =>
    by_cases hp : p.1 = k
    · simp [List.any_cons, dictGet?, hp]
    · simp [List.any_cons, dictGet?, hp, ih]

theorem dictGet?_mapUpdate_self (d : List (String × String)) (k v : String)
    (h : d.any (fun p => p.1 == k) = true) :
    dictGet? (d.map (fun p => if p.1 = k then (k, v) else p)) k = some v := by
  induction d with
  | nil => simp at h
  | cons p rest ih =>
    by_cases hp : p.1 = k
    · simp [dictGet?, hp]
    · have hb : (p.1 == k) = false := by simp [hp]
      rw [List.any_cons, hb, Bool.false_or] at h
      simp [dictGet?, hp, ih h]

theorem dictGet?_mapUpdate_ne (d : List (String × String)) (k v k' : String)
    (hk : k' ≠ k) :
    dictGet? (d.map (fun p => if p.1 = k then (k, v) else p)) k' = dictGet? d k' := by
  induction d with
  | nil => rfl
  | cons p rest ih =>
    by_cases hp : p.1 = k
    · simp [dictGet?, hp, Ne.symm hk, ih]
    · simp [dictGet?, hp, ih]

theorem dictGet?_dictInsert_self (d : List (String × String)) (k v : String) :
    dictGet? (dictInsert d k v) k = some v := by
  unfold dictInsert
  cases h : d.any (fun p => p.1 == k) with
  | true => simp [dictGet?_mapUpdate_self d k v h]
  | false =>
    rw [if_neg (by simp [h]), dictGet?_append]
    have hn : dictGet? d k = none := by
      rw [any_key_eq_isSome] at h
      exact Option.not_isSome_iff_eq_none.mp (by simp [h])
    simp [hn, dictGet?, Option.none_or]

theorem dictGet?_dictInsert_ne (d : List (String × String)) (k v k' : String)
    (hk : k' ≠ k) :
    dictGet? (dictInsert d k v) k' = dictGet? d k' := by
  unfold dictInsert
  cases h : d.any (fun p => p.1 == k) with
  | true => simp [dictGet?_mapUpdate_ne d k v k' hk]
  | false =>
    rw [if_neg (by simp [h]), dictGet?_append]
    have hk2 : ¬(k = k') := fun hh => hk hh.symm
    simp [dictGet?, hk2, Option.or_none]

theorem dictGet?_singleton (k0 v0 k : String) :
    dictGet? [(k0, v0)] k = if k0 = k then some v0 else none := by
  simp [dictGet?]

theorem dictGet?_parseStep (d : List (String × String)) (pr k : String) :
    dictGet? (parseStep d pr) k = (pairValueFor pr k).or (dictGet? d k) := by
  cases hkv : pairKV pr with
  | none => simp [parseStep, pairValueFor, hkv, Option.none_or]
  | some kv =>
    by_cases hk : kv.1 = k
    · simp only [parseStep, pairValueFor, hkv]
      rw [if_pos hk, ← hk, dictGet?_dictInsert_self]
      rfl
    · simp only [parseStep, pairValueFor, hkv]
      rw [if_neg hk, dictGet?_dictInsert_ne d kv.1 kv.2 k (Ne.symm hk), Option.none_or]

theorem dictGet?_foldl_parseStep (prs : List String) (d : List (String × String)) (k : String) :
    dictGet? (prs.foldl parseStep d) k = (lastPairValue k prs).or (dictGet? d k) := by
  induction prs generalizing d with
  | nil => simp [lastPairValue, Option.none_or]
  | cons pr rest ih =>
    rw [List.foldl_cons, ih, dictGet?_parseStep]
    show _ = ((lastPairValue k rest).or (pairValueFor pr k)).or (dictGet? d k)
    rw [Option.or_assoc]

theorem dictGet?_parseParams (raw k : String) :
    dictGet? (parseParams raw) k = lastPairValue k (splitAmp raw) := by
  unfold parseParams
  by_cases h : raw = ""
  · subst h
    rfl
  · rw [if_neg h, dictGet?_foldl_parseStep]
    show (lastPairValue k (splitAmp raw)).or none = _
    rw [Option.or_none]

theorem dictGet?_applyDefault (d : List (String × String)) (k k0 v0 : String) :
    dictGet? (applyDefault k0 v0 d) k =
      if k = k0 then some ((dictGet? d k).getD v0) else dictGet? d k := by
  unfold applyDefault
  cases hany : d.any (fun p => p.1 == k0) with
  | true =>
    simp only [hany, if_true]
    by_cases hk : k = k0
    · rw [if_pos hk, hk]
      rw [any_key_eq_isSome] at hany
      obtain ⟨v, hv⟩ := Option.isSome_iff_exists.mp hany
      rw [hv]
      rfl
    · rw [if_neg hk]
  | false =>
    simp only [hany, if_false, Bool.false_eq_true]
    rw [dictGet?_append, dictGet?_singleton]
    by_cases hk : k = k0
    · rw [if_pos hk, if_pos hk.symm]
      have hn : dictGet? d k = none := by
        rw [any_key_eq_isSome] at hany
        rw [hk]
        exact Option.not_isSome_iff_eq_none.mp (by simp [hany])
      rw [hn, Option.none_or]
      rfl
    · rw [if_neg hk, if_neg (fun hh => hk hh.symm), Option.or_none]

theorem mem_applyDefault (d : List (String × String)) (k0 v0 : String) (p : String × String)
    (hp : p ∈ applyDefault k0 v0 d) : p ∈ d ∨ p = (k0, v0) := by
  unfold applyDefault at hp
  by_cases h : d.any (fun q => q.1 == k0)
  · rw [if_pos h] at hp
    exact Or.inl hp
  · rw [if_neg h, List.mem_append] at hp
    rcases hp with hp | hp
    · exact Or.inl hp
    · simp at hp
      exact Or.inr hp

theorem mem_of_dictGet? (d : List (String × String)) (k v : String)
    (h : dictGet? d k = some v) : (k, v) ∈ d := by
  induction d with
  | nil => exact absurd h (by simp [dictGet?])
  | cons p rest ih =>
    rw [dictGet?] at h
    by_cases hp : p.1 = k
    · rw [if_pos hp] at h
      refine List.mem_cons.mpr (Or.inl ?_)
      obtain ⟨p1, p2⟩ := p
      simp at hp
      cases h
      simp [hp]
    · rw [if_neg hp] at h
      exact List.mem_cons.mpr (Or.inr (ih h))

theorem lastPairValue_isSome_of_mem (prs : List String) (pr : String) (k : String)
    (hmem : pr ∈ prs) (hv : (pairValueFor pr k).isSome = true) :
    (lastPairValue k prs).isSome = true := by
  induction prs with
  | nil => cases hmem
  | cons a rest ih =>
    rw [lastPairValue, Option.isSome_or]
    rcases List.mem_cons.mp hmem with h | h
    · rw [h] at hv
      rw [hv, Bool.or_true]
    · rw [ih h, Bool.true_or]

/-- Claim C1: the parameter map passed to the request executor never
contains a `collection` key, and `search_studies` targets the
collection-scoped endpoint for `X` exactly when the captured collection
value `X` — the value of the last `collection=…` pair of the raw string —
is present and non-empty; otherwise it targets the global search
endpoint. -/
theorem claim_C1 (raw : String) :
    (search_studies_params raw).all (fun p => p.1 != "collection") = true ∧
    search_studies_url raw =
      (match lastPairValue "collection" (splitAmp raw) with
       | some c => if c = "" then globalSearchUrl else collectionSearchUrl c
       | none => globalSearchUrl) := by
  constructor
  · rw [List.all_eq_true]
    intro p hp
    unfold search_studies_params at hp
    rcases mem_applyDefault _ _ _ p hp with hp | rfl
    · rcases mem_applyDefault _ _ _ p hp with hp | rfl
      · rcases mem_applyDefault _ _ _ p hp with hp | rfl
        · exact (List.mem_filter.mp (List.mem_filter.mp hp).1).2
        · decide
      · decide
    · decide
  · unfold search_studies_url
    rw [dictGet?_parseParams]

/-- Claim C2: calling `search_studies` with the empty string issues a
request to the global search endpoint whose parameter map is exactly
`page = "1"`, `pageSize = "20"`, `sortOrder = "descending"` and nothing
else. -/
theorem claim_C2 (net : HttpRequest → RequestOutcome) :
    search_studies net "" =
      handleOutcome (net
        { url := globalSearchUrl,
          params := some [("page", "1"), ("pageSize", "20"), ("sortOrder", "descending")] }) ∧
    search_studies_url "" = globalSearchUrl ∧
    search_studies_params "" =
      [("page", "1"), ("pageSize", "20"), ("sortOrder", "descending")] := by
  have hu : search_studies_url "" = globalSearchUrl := by decide
  have hp : search_studies_params "" =
      [("page", "1"), ("pageSize", "20"), ("sortOrder", "descending")] := by decide
  refine ⟨?_, hu, hp⟩
  unfold search_studies make_api_request
  rw [hu, hp]

/-- Claim C3: the final values of `page`, `pageSize` and `sortOrder` are
exactly the parsed ones whenever present (any value, the empty string
included); the defaults `"1"`, `"20"`, `"descending"` apply only when the
key is absent after parsing. -/
theorem claim_C3 (raw : String) :
    dictGet? (search_studies_params raw) "page" =
      some ((dictGet? (parseParams raw) "page").getD "1") ∧
    dictGet? (search_studies_params raw) "pageSize" =
      some ((dictGet? (parseParams raw) "pageSize").getD "20") ∧
    dictGet? (search_studies_params raw) "sortOrder" =
      some ((dictGet? (parseParams raw) "sortOrder").getD "descending") := by
  unfold search_studies_params
  refine ⟨?_, ?_, ?_⟩
  · rw [dictGet?_applyDefault, if_neg (by decide), dictGet?_applyDefault,
      if_neg (by decide), dictGet?_applyDefault, if_pos rfl,
      dictGet?_filterFacet _ _ (by decide), dictGet?_filterColl _ _ (by decide)]
  · rw [dictGet?_applyDefault, if_neg (by decide), dictGet?_applyDefault,
      if_pos rfl, dictGet?_applyDefault, if_neg (by decide),
      dictGet?_filterFacet _ _ (by decide), dictGet?_filterColl _ _ (by decide)]
  · rw [dictGet?_applyDefault, if_pos rfl, dictGet?_applyDefault,
      if_neg (by decide), dictGet?_applyDefault, if_neg (by decide),
      dictGet?_filterFacet _ _ (by decide), dictGet?_filterColl _ _ (by decide)]

/-- Claim C4: no key of the final parameter map starts with the literal,
case-sensitive `facet.`, wherever the pair occurred in the input. -/
theorem claim_C4 (raw : String) :
    (search_studies_params raw).all (fun p => !(strBeginsWith p.1 "facet.")) = true := by
  rw [List.all_eq_true]
  intro p hp
  unfold search_studies_params at hp
  rcases mem_applyDefault _ _ _ p hp with hp | rfl
  · rcases mem_applyDefault _ _ _ p hp with hp | rfl
    · rcases mem_applyDefault _ _ _ p hp with hp | rfl
      · exact (List.mem_filter.mp hp).2
      · decide
    · decide
  · decide

/-- Claim C5: the raw string is split on `&`; each candidate pair is split
at its first `=` only, so values may contain `=` (`a=b=c` parses to key
`a`, value `b=c`); a pair with no `=` contributes nothing; a later
occurrence of a key overwrites an earlier one (the parsed value of every
key is the value of its last pair); the example
`query=cancer&badpair&page=2` yields exactly the expected map. -/
theorem claim_C5 :
    (∀ raw k, dictGet? (parseParams raw) k = lastPairValue k (splitAmp raw)) ∧
    (∀ (d : List (String × String)) (pr : String), pairKV pr = none → parseStep d pr = d) ∧
    pairKV "a=b=c" = some ("a", "b=c") ∧
    search_studies_params "query=cancer&badpair&page=2" =
      [("query", "cancer"), ("page", "2"), ("pageSize", "20"), ("sortOrder", "descending")] := by
  refine ⟨dictGet?_parseParams, ?_, by decide, by decide⟩
  intro d pr h
  unfold parseStep
  rw [h]

/-- Witness for claim C5 at concrete inputs: duplicate keys resolve to the
last pair, and a pair without `=` leaves the dict unchanged. -/
theorem claim_C5_witness :
    dictGet? (parseParams "a=1&a=2") "a" = lastPairValue "a" (splitAmp "a=1&a=2") ∧
    parseStep [] "badpair" = [] :=
  ⟨claim_C5.1 "a=1&a=2" "a", claim_C5.2.1 [] "badpair" (by decide)⟩

/-- Claim C6: on any non-200 status `c` with body `b` the executor — and
hence any tool, here `get_study` — returns exactly
`Error: Request failed with status code <c>. Response: <b>` with the body
un-parsed; in particular a 404 with body `not found` yields exactly
`Error: Request failed with status code 404. Response: not found`. -/
theorem claim_C6 :
    (∀ (status : Nat) (jb : Except String PyJson) (body : String), status ≠ 200 →
        handleOutcome (RequestOutcome.response status jb body) =
          "Error: Request failed with status code " ++ toString status ++
          ". Response: " ++ body) ∧
    (∀ (net : HttpRequest → RequestOutcome) (accession : String) (status : Nat)
        (jb : Except String PyJson) (body : String), status ≠ 200 →
        net (get_study_request accession) = RequestOutcome.response status jb body →
        get_study net accession =
          "Error: Request failed with status code " ++ toString status ++
          ". Response: " ++ body) ∧
    (∀ jb : Except String PyJson,
        handleOutcome (RequestOutcome.response 404 jb "not found") =
          "Error: Request failed with status code 404. Response: not found") := by
  have h1 : ∀ (status : Nat) (jb : Except String PyJson) (body : String), status ≠ 200 →
      handleOutcome (RequestOutcome.response status jb body) =
        "Error: Request failed with status code " ++ toString status ++
        ". Response: " ++ body := by
    intro status jb body h
    simp only [handleOutcome]
    rw [if_neg h]
  refine ⟨h1, ?_, ?_⟩
  · intro net accession status jb body h hnet
    show handleOutcome (net (get_study_request accession)) = _
    rw [hnet]
    exact h1 status jb body h
  · intro jb
    rw [h1 404 jb "not found" (by decide)]
    rfl

/-- Witness for claim C6: the 404 formatting, at the executor and through
the `get_study` tool with a network oracle answering 404. -/
theorem claim_C6_witness :
    handleOutcome (RequestOutcome.response 404 (Except.error "e") "not found") =
      "Error: Request failed with status code 404. Response: not found" ∧
    get_study (fun _ => RequestOutcome.response 404 (Except.error "e") "nf") "S-BSST1" =
      "Error: Request failed with status code 404. Response: nf" :=
  ⟨(claim_C6.1 404 (Except.error "e") "not found" (by decide)).trans (by decide),
   (claim_C6.2.1 (fun _ => RequestOutcome.response 404 (Except.error "e") "nf")
      "S-BSST1" 404 (Except.error "e") "nf" (by decide) rfl).trans (by decide)⟩

/-- Claim C7: on a 200 response whose body parses as JSON `j`, the
executor returns `j` re-serialised with a fixed indent width of two
spaces; in particular the body `\x7b"a":1\x7d` yields exactly the
two-space indented text. -/
theorem claim_C7 :
    (∀ (j : PyJson) (text : String),
        handleOutcome (RequestOutcome.response 200 (Except.ok j) text) = pyJsonDumps2 j) ∧
    (∀ (net : HttpRequest → RequestOutcome) (url : String)
        (ps : Option (List (String × String))) (j : PyJson) (text : String),
        net { url := url, params := ps } = RequestOutcome.response 200 (Except.ok j) text →
        make_api_request net url ps = pyJsonDumps2 j) ∧
    pyJsonDumps2 (PyJson.obj [("a", PyJson.num 1)]) = "\x7b\n  \"a\": 1\n\x7d" := by
  have h1 : ∀ (j : PyJson) (text : String),
      handleOutcome (RequestOutcome.response 200 (Except.ok j) text) = pyJsonDumps2 j := by
    intro j text
    simp only [handleOutcome]
    rw [if_pos trivial]
  refine ⟨h1, ?_, ?_⟩
  · intro net url ps j text h
    unfold make_api_request
    rw [h]
    exact h1 j text
  · simp [pyJsonDumps2, dumpsVal, dumpsFields, dumpString, escapeChar, indentStr]
    decide

/-- Witness for claim C7: a network oracle answering 200 with JSON body
`\x7b"a":1\x7d` makes the executor return the two-space indented text. -/
theorem claim_C7_witness :
    make_api_request
      (fun _ => RequestOutcome.response 200
        (Except.ok (PyJson.obj [("a", PyJson.num 1)])) "")
      "u" none = "\x7b\n  \"a\": 1\n\x7d" :=
  (claim_C7.2.1 _ "u" none _ "" rfl).trans claim_C7.2.2

/-- Claim C8: the executor converts every raised exception — including a
JSON-parse failure of a 200 body — into the string
`Error: An exception occurred during request: <description>`, and each of
the three tools returns the executor's text for whatever outcome the
network produces, so every tool is a total `String`-valued function with
failures reported through the same channel as success. -/
theorem claim_C8 :
    (∀ d : String, handleOutcome (RequestOutcome.except d) =
        "Error: An exception occurred during request: " ++ d) ∧
    (∀ d text : String,
        handleOutcome (RequestOutcome.response 200 (Except.error d) text) =
          "Error: An exception occurred during request: " ++ d) ∧
    (∀ (net : HttpRequest → RequestOutcome) (accession : String),
        get_study net accession = handleOutcome (net (get_study_request accession))) ∧
    (∀ (net : HttpRequest → RequestOutcome) (params : String),
        search_studies net params = handleOutcome (net (search_studies_request params))) ∧
    (∀ (net : HttpRequest → RequestOutcome) (accession : String),
        get_study_info net accession =
          handleOutcome (net (get_study_info_request accession))) := by
  refine ⟨fun d => rfl, ?_, fun net a => rfl, fun net ps => rfl, fun net a => rfl⟩
  intro d text
  simp only [handleOutcome]
  rw [if_pos trivial]

/-- Claim C9: `get_study a` issues its single GET to exactly
`…/studies/a` and `get_study_info a` to exactly `…/studies/a/info`, both
with no query parameters and with the accession used verbatim, and each
returns the executor's result unchanged. -/
theorem claim_C9 :
    (∀ accession : String, get_study_request accession =
        { url := "https://www.ebi.ac.uk/biostudies/api/v1/studies/" ++ accession,
          params := none }) ∧
    (∀ accession : String, get_study_info_request accession =
        { url := "https://www.ebi.ac.uk/biostudies/api/v1/studies/" ++ accession ++ "/info",
          params := none }) ∧
    (∀ (net : HttpRequest → RequestOutcome) (accession : String),
        get_study net accession = handleOutcome (net (get_study_request accession))) ∧
    (∀ (net : HttpRequest → RequestOutcome) (accession : String),
        get_study_info net accession =
          handleOutcome (net (get_study_info_request accession))) :=
  ⟨fun _ => rfl, fun _ => rfl, fun _ _ => rfl, fun _ _ => rfl⟩

/-- Claim C10: when some candidate pair of the raw string begins with `=`,
the final parameter map retains an entry with the empty-string key: a
pair containing `=` is never discarded even when its key part is empty. -/
theorem claim_C10 (raw : String)
    (h : ∃ pr ∈ splitAmp raw, pr.data.head? = some '=') :
    ∃ v : String, ("", v) ∈ search_studies_params raw := by
  obtain ⟨pr, hmem, hhead⟩ := h
  have hpv : (pairValueFor pr "").isSome = true := by
    obtain ⟨prd⟩ := pr
    cases prd with
    | nil => cases hhead
    | cons c cs =>
      have hc : c = '=' := by
        simp [List.head?] at hhead
        exact hhead
      subst hc
      simp [pairValueFor, pairKV, splitFirstEq, show String.mk [] = "" from rfl]
  have hsome : (dictGet? (parseParams raw) "").isSome = true := by
    rw [dictGet?_parseParams]
    exact lastPairValue_isSome_of_mem (splitAmp raw) pr "" hmem hpv
  have heq : dictGet? (search_studies_params raw) "" = dictGet? (parseParams raw) "" := by
    unfold search_studies_params
    rw [dictGet?_applyDefault, if_neg (by decide), dictGet?_applyDefault,
      if_neg (by decide), dictGet?_applyDefault, if_neg (by decide),
      dictGet?_filterFacet _ _ (by decide), dictGet?_filterColl _ _ (by decide)]
  have hfin : (dictGet? (search_studies_params raw) "").isSome = true := by
    rw [heq]
    exact hsome
  obtain ⟨v, hv⟩ := Option.isSome_iff_exists.mp hfin
  exact ⟨v, mem_of_dictGet? _ _ _ hv⟩

/-- Witness for claim C10: the input `=v` keeps an empty-string key. -/
theorem claim_C10_witness :
    ∃ v : String, ("", v) ∈ search_studies_params "=v" :=
  claim_C10 "=v" ⟨"=v", by decide, by decide⟩

end BioStudies
